import Mathlib

/-!
Shallow embedding of the `xlog` logging package (the current revision,
the one defining `LogLevel`, `Logger.output`, `Logger.format`,
`Logger.write`, `Logger.changeFileByDay`, `formatTime` and
`NewLoggerFromFile`), together with proofs about the claims of its
specification.

Modelling conventions:
* Go `interface{}` arguments are modelled by the inductive `GoValue`
  (strings and integers, the shapes the spec's examples use).
* The standard-library functions `fmt.Sprint` / `fmt.Sprintf` are
  modelled from their documented semantics (`sprint`, `sprintf`);
  `strconv.Itoa` on the non-negative values produced by `time.Time`
  and `runtime.Caller` is `Nat.repr`.
* `time.Time` is modelled by its observable projections `Date()` and
  `Clock()` (structure `GoTime`).
* Channels and files are modelled by explicit sequences and handle
  identifiers; the writer goroutine and the rotation goroutine become
  step functions over those.
-/

namespace XLog

/-- A Go `interface{}` operand as passed in the variadic `v ...interface{}`
    argument lists: either a string or an integer. -/
inductive GoValue where
  | str (s : String)
  | int (n : Int)
deriving DecidableEq

/-- Whether the operand is a Go string (the test `fmt` uses when deciding
    whether to insert a separating space). -/
def GoValue.isString : GoValue → Bool
  | .str _ => true
  | .int _ => false

/-- The default (`%v`) rendering of an operand: a string prints as itself,
    an integer in decimal. -/
def GoValue.defaultString : GoValue → String
  | .str s => s
  | .int n => toString n

/-- Modelled from the documented semantics of `fmt.Sprint`'s loop: before
    every operand after the first, a single space is written when neither
    the previous operand nor the current one is a string.  `prev` is the
    previous operand. -/
def sprintAux (prev : GoValue) : List GoValue → String
  | [] => ""
  | x :: rest =>
      (if prev.isString || x.isString then "" else " ")
        ++ x.defaultString ++ sprintAux x rest

/-- Modelled from the documented semantics of `fmt.Sprint`: operands are
    formatted in their default formats and concatenated, with spaces added
    between operands when neither is a string. -/
def sprint : List GoValue → String
  | [] => ""
  | x :: rest => x.defaultString ++ sprintAux x rest

/-- Modelled from the documented semantics of one `fmt` verb applied to one
    operand (the subset of verbs the claims exercise: `%s`, `%d`, `%v`;
    a mismatched operand renders the documented `%!verb(...)` marker). -/
def applyVerb (c : Char) (v : GoValue) : String :=
  if c = 's' then
    match v with
    | .str s => s
    | .int n => "%!s(int=" ++ toString n ++ ")"
  else if c = 'd' then
    match v with
    | .int n => toString n
    | .str s => "%!d(string=" ++ s ++ ")"
  else if c = 'v' then
    v.defaultString
  else
    "%!" ++ String.singleton c ++ "(" ++ v.defaultString ++ ")"

/-- The documented `%!(EXTRA ...)` tail `fmt.Sprintf` appends when operands
    remain after the format string is exhausted. -/
def extraTail (args : List GoValue) : String :=
  match args with
  | [] => ""
  | _ => "%!(EXTRA " ++ String.intercalate ", " (args.map GoValue.defaultString) ++ ")"

/-- Modelled from the documented semantics of `fmt.Sprintf`: literal
    characters are copied; `%%` prints `%`; any other `%`-verb consumes the
    next operand; a missing operand prints `%!verb(MISSING)`; leftover
    operands print the `%!(EXTRA ...)` tail. -/
def sprintfAux : List Char → List GoValue → String
  | [], args => extraTail args
  | ['%'], args => "%!(NOVERB)" ++ extraTail args
  | '%' :: c :: cs, args =>
      if c = '%' then "%" ++ sprintfAux cs args
      else
        match args with
        | [] => "%!" ++ String.singleton c ++ "(MISSING)" ++ sprintfAux cs []
        | a :: rest => applyVerb c a ++ sprintfAux cs rest
  | c :: cs, args => String.singleton c ++ sprintfAux cs args

/-- Modelled from the documented semantics of `fmt.Sprintf`. -/
def sprintf (format : String) (args : List GoValue) : String :=
  sprintfAux format.data args

/-- The observable fields of a `time.Time`: `Date()` gives year, month, day
    and `Clock()` gives hour, min, sec.  `Month` is its numeric value
    (January = 1). -/
structure GoTime where
  year : Nat
  month : Nat
  day : Nat
  hour : Nat
  min : Nat
  sec : Nat
deriving DecidableEq

/-- The `LogLevel` enumeration, in source order:
    `LevelDebug LogLevel = iota; LevelInfo; LevelWarn; LevelError;
     LevelPanic; LevelFatal`. -/
inductive LogLevel where
  | LevelDebug
  | LevelInfo
  | LevelWarn
  | LevelError
  | LevelPanic
  | LevelFatal
deriving DecidableEq

/-- The underlying integer of a `LogLevel` (Go `iota` numbering), used by
    the `level < l.level` comparison in `output`. -/
def LogLevel.toNat : LogLevel → Nat
  | .LevelDebug => 0
  | .LevelInfo => 1
  | .LevelWarn => 2
  | .LevelError => 3
  | .LevelPanic => 4
  | .LevelFatal => 5

/-- The level tag written by the `switch lc.level` in `format`
    (the constants `levelDebug = "debug"`, ..., `levelFatal = "fatal"`). -/
def levelString : LogLevel → String
  | .LevelDebug => "debug"
  | .LevelInfo => "info"
  | .LevelWarn => "warn"
  | .LevelError => "error"
  | .LevelPanic => "panic"
  | .LevelFatal => "fatal"

/-- The `logContent` struct carried through the `buffer` channel. -/
structure LogContent where
  t : GoTime
  level : LogLevel
  file : String
  line : Nat
  format : String
  v : List GoValue
deriving DecidableEq

/-- The `Logger` struct fields the claims depend on.  `out` and `f` are
    file-handle identifiers (`f = none` models the nil `*os.File` of a
    stream-backed logger); the channels `buffer` and `dayChange` and the
    `bufferPool` are modelled by the event sequences of the step functions
    below. -/
structure Logger where
  level : LogLevel
  calldepth : Nat
  out : Nat
  f : Option Nat
  fileName : String
  curDay : Nat
deriving DecidableEq

/-- The two-digit date/time rendering of `format`: it writes a `'0'` byte
    when the value is below 10, then `strconv.Itoa` of the value. -/
def padTo2 (n : Nat) : String :=
  (if n < 10 then "0" else "") ++ Nat.repr n

/-- The message body of `format` (lines 148-152): `fmt.Sprint(lc.v...)`
    when no format template was supplied, else
    `fmt.Sprintf(lc.format, lc.v...)`. -/
def msgBody (lc : LogContent) : String :=
  if lc.format = "" then sprint lc.v else sprintf lc.format lc.v

/-- What a call of `Logger.format` returns and does.  `format` has a VALUE
    receiver (`func (l Logger) format(...)`), so the assignment
    `l.curDay = day` on line 94 mutates the method's private copy of the
    struct and is discarded when the call returns; `curDayLocal` is that
    copy's field.  `dayChangeSent` records whether `l.dayChange <- true`
    was executed (line 95).  `bytes` is the rendered line returned by
    `buf.Bytes()`. -/
structure FormatResult where
  bytes : String
  dayChangeSent : Bool
  curDayLocal : Nat
deriving DecidableEq

/-- Shallow embedding of `Logger.format` (lines 85-156): renders
    `year/month/day hour:min:sec [level] file:line message\n` with the
    two-digit zero-padding conditionals of the source, compares the
    record's day against the receiver copy's `curDay`, and reports the
    day-change notification. -/
def format (l : Logger) (lc : LogContent) : FormatResult :=
  let dayDiffers : Bool := lc.t.day != l.curDay
  { curDayLocal := if dayDiffers then lc.t.day else l.curDay
    dayChangeSent := dayDiffers
    bytes :=
      Nat.repr lc.t.year ++ "/" ++ padTo2 lc.t.month ++ "/" ++ padTo2 lc.t.day
        ++ " " ++ padTo2 lc.t.hour ++ ":" ++ padTo2 lc.t.min ++ ":" ++ padTo2 lc.t.sec
        ++ " [" ++ levelString lc.level ++ "] "
        ++ lc.file ++ ":" ++ Nat.repr lc.line ++ " "
        ++ msgBody lc ++ "\n" }

/-- Shallow embedding of `Logger.output` (lines 265-284).  `t` is the
    captured `time.Now()`; `caller` is the result of
    `runtime.Caller(l.calldepth)` (`none` when `ok` is false).  The result
    is the `logContent` sent into `l.buffer`, or `none` when the level
    check `level < l.level` returns early (nothing is enqueued).
    `resolvedFile`/`resolvedLine` are the `file` and `line` variables after
    the `if !ok { file = "???"; line = 0 }` fallback. -/
def resolvedFile (caller : Option (String × Nat)) : String :=
  match caller with | some p => p.1 | none => "???"

/-- The `line` variable after the `if !ok` fallback of `output`. -/
def resolvedLine (caller : Option (String × Nat)) : Nat :=
  match caller with | some p => p.2 | none => 0

def output (l : Logger) (level : LogLevel) (t : GoTime)
    (caller : Option (String × Nat)) (format : String) (v : List GoValue) :
    Option LogContent :=
  if level.toNat < l.level.toNat then none
  else
    some { t := t, level := level, file := resolvedFile caller,
           line := resolvedLine caller, format := format, v := v }

/-- The local string `s` computed by `Logger.write` for a Panic-level
    record (lines 253-258): `fmt.Sprint(lc.v...)` when `lc.format` is
    empty, else `fmt.Sprintf(lc.format, lc.v...)`. -/
def panicMessage (lc : LogContent) : String :=
  if lc.format = "" then sprint lc.v else sprintf lc.format lc.v

/-- What one iteration of the writer loop does after the sink write:
    `os.Exit(1)` on Fatal, `panic(s)` on Panic, otherwise loop again. -/
inductive TermAction where
  | exitOne
  | panicWith (msg : String)
  | next
deriving DecidableEq

/-- Result of one iteration of `Logger.write` (lines 244-263) on a
    dequeued record: the bytes written to `l.out`, then the terminal
    action selected by the level branch. -/
structure WriteResult where
  bytes : String
  action : TermAction
deriving DecidableEq

/-- Shallow embedding of one iteration of `Logger.write`: format the
    record, write the bytes to the current sink, then branch on the
    level. -/
def writeStep (l : Logger) (lc : LogContent) : WriteResult :=
  { bytes := (format l lc).bytes
    action :=
      if lc.level = LogLevel.LevelFatal then TermAction.exitOne
      else if lc.level = LogLevel.LevelPanic then TermAction.panicWith (panicMessage lc)
      else TermAction.next }

/-- Observable events of one writer-loop iteration, in program order. -/
inductive Event where
  | poolGet
  | poolPut
  | sinkWrite (bytes : String)
  | exited (code : Nat)
  | panicked (msg : String)
deriving DecidableEq

/-- The event trace of one iteration of `Logger.write` on a dequeued
    record.  Inside `format`, `l.bufferPool.Get()` runs first (line 86)
    and the deferred `l.bufferPool.Put(buf)` (line 88) runs when `format`
    RETURNS — that is, before the caller executes
    `l.out.Write(logBytes)` (line 249).  The terminal action, if any,
    follows the sink write. -/
def writeStepTrace (l : Logger) (lc : LogContent) : List Event :=
  [Event.poolGet, Event.poolPut, Event.sinkWrite (format l lc).bytes]
    ++ (if lc.level = LogLevel.LevelFatal then [Event.exited 1]
        else if lc.level = LogLevel.LevelPanic then [Event.panicked (panicMessage lc)]
        else [])

/-- One writer-loop iteration as seen by the writer goroutine's `*Logger`:
    the call `logBytes := l.format(lc)` passes the Logger struct BY VALUE
    (`format` has a value receiver, line 85), so the `l.curDay = day`
    assignment inside `format` mutates the callee's private copy and the
    writer's logger is unchanged when the call returns.  The pair is the
    writer's logger after the iteration together with the iteration's
    result. -/
def writeIter (l : Logger) (lc : LogContent) : Logger × WriteResult :=
  (l, writeStep l lc)

/-- The writer loop `Logger.write` run over the queue contents in FIFO
    order (the `buffer` channel delivers records to its single consumer in
    enqueue order): each record's bytes are written whole, and the loop
    stops after a Fatal record (`os.Exit(1)`) or a Panic record
    (`panic(s)` unwinds the goroutine). -/
def processQueue (l : Logger) : List LogContent → List String
  | [] => []
  | lc :: rest =>
      let r := writeStep l lc
      r.bytes ::
        (match r.action with
          | TermAction.next => processQueue l rest
          | _ => [])

/-- The records the writer loop actually consumes from an enqueued
    sequence: everything up to and including the first Fatal or Panic
    record. -/
def consumedRecords : List LogContent → List LogContent
  | [] => []
  | lc :: rest =>
      lc ::
        (if lc.level = LogLevel.LevelFatal ∨ lc.level = LogLevel.LevelPanic then []
         else consumedRecords rest)

/-- Composition of a logging call with the writer loop: the sink writes
    produced by a single `output` call (empty when the record was filtered
    out, one whole formatted line when it was enqueued). -/
def callSinkWrites (l : Logger) (level : LogLevel) (t : GoTime)
    (caller : Option (String × Nat)) (fmtStr : String) (v : List GoValue) :
    List String :=
  match output l level t caller fmtStr v with
  | none => []
  | some lc => [(writeStep l lc).bytes]

/-- Shallow embedding of `formatTime` (lines 236-238):
    `fmt.Sprintf("%4d%2d%2d", t.Year(), t.Month(), t.Day())`.  The Go
    verbs `%4d` and `%2d` pad with SPACES on the left to the given
    width. -/
def goPadSpace (w : Nat) (s : String) : String :=
  (String.mk (List.replicate (w - s.length) ' ')) ++ s

/-- `formatTime` renders year, month and day space-padded to widths 4, 2
    and 2. -/
def formatTime (t : GoTime) : String :=
  goPadSpace 4 (Nat.repr t.year) ++ goPadSpace 2 (Nat.repr t.month)
    ++ goPadSpace 2 (Nat.repr t.day)

/-- The dated file name `logFile + "." + formatTime(time.Now())` built by
    `NewLoggerFromFile` (line 186) and `changeFileByDay` (line 214). -/
def nowLogFileName (logFile : String) (t : GoTime) : String :=
  logFile ++ "." ++ formatTime t

/-- The file layout `NewLoggerFromFile` (lines 185-201) establishes when
    both the `createFile` and the `os.Symlink(nowLogFile, logFile)` calls
    succeed: the active output file is the dated name and a symlink named
    `logFile` points at it. -/
structure FileSetup where
  activeFile : String
  symlinkName : String
  symlinkTarget : String
deriving DecidableEq

/-- The names used by `NewLoggerFromFile` on the success path. -/
def newLoggerFromFileSetup (logFile : String) (t : GoTime) : FileSetup :=
  { activeFile := nowLogFileName logFile t
    symlinkName := logFile
    symlinkTarget := nowLogFileName logFile t }

/-- Result of one iteration of `Logger.changeFileByDay` (lines 207-234)
    on a received `dayChange` value.  `errorCalled` records whether
    `l.Error(err)` ran (an Error-level call into the same pipeline);
    `fatalExit` records whether `log.Fatal(err)` ran (process
    termination); `closedOld` whether the previous handle was closed. -/
structure RotResult where
  l : Logger
  errorCalled : Bool
  fatalExit : Bool
  closedOld : Bool
deriving DecidableEq

/-- Shallow embedding of one iteration of `Logger.changeFileByDay`.
    `ok` is the boolean received from `l.dayChange`; `createResult` is the
    outcome of `createFile(nowLogFile)` (`some handle` on success, `none`
    on error); `symlinkOk` is whether `os.Symlink(nowLogFile, l.fileName)`
    succeeds.  On create failure the iteration logs the error through
    `l.Error` and `continue`s with the logger unchanged; on success it
    swaps `l.out` and `l.f` to the new handle, closes the old handle, and
    then calls `log.Fatal` if the symlink update fails. -/
def changeFileByDayStep (l : Logger) (ok : Bool) (createResult : Option Nat)
    (symlinkOk : Bool) : RotResult :=
  if ok ∧ l.f.isSome then
    match createResult with
    | none => { l := l, errorCalled := true, fatalExit := false, closedOld := false }
    | some fh =>
        let l' : Logger := { l with out := fh, f := some fh }
        if symlinkOk then
          { l := l', errorCalled := false, fatalExit := false, closedOld := true }
        else
          { l := l', errorCalled := false, fatalExit := true, closedOld := true }
  else { l := l, errorCalled := false, fatalExit := false, closedOld := false }

/-! ### Spec-side renderings

These two definitions follow the specification's words ("zero-padded to
exactly 2 digits", "the year is 4 digits"): a two-digit decimal rendering
and a four-digit decimal rendering, digit characters written explicitly.
They are compared with the renderings the source produces. -/

/-- The spec's two-digit zero-padded decimal rendering of `n < 100`. -/
def twoDigitRendering (n : Nat) : String :=
  String.mk [Nat.digitChar (n / 10), Nat.digitChar (n % 10)]

/-- The spec's four-digit decimal rendering of `1000 ≤ n ≤ 9999`. -/
def fourDigitRendering (n : Nat) : String :=
  String.mk [Nat.digitChar (n / 1000), Nat.digitChar (n / 100 % 10),
    Nat.digitChar (n / 10 % 10), Nat.digitChar (n % 10)]

/-! ### Concrete sample inputs used by witnesses and counterexamples -/

/-- A stream-backed logger with threshold Info (as `NewLogger` builds with
    `Options{Level: LevelInfo}` on October 16th). -/
def infoLogger : Logger := ⟨.LevelInfo, 3, 0, none, "", 16⟩

/-- A stream-backed logger with threshold Debug (the `Options{}` default)
    whose stored day marker is 3. -/
def debugLogger : Logger := ⟨.LevelDebug, 3, 0, none, "", 3⟩

/-- A file-backed logger: sink handle 1, open file handle 1, base name
    `"log"`, stored day marker 1. -/
def fileLogger : Logger := ⟨.LevelDebug, 3, 1, some 1, "log", 1⟩

/-- A Warn-level record as the README example produces. -/
def warnContent : LogContent :=
  ⟨⟨2018, 10, 16, 17, 51, 26⟩, .LevelWarn, "xlog.go", 66, "", [.str "this is warn"]⟩

/-- A Debug-level record timestamped January 3rd, 04:05:06. -/
def hiContent : LogContent :=
  ⟨⟨2026, 1, 3, 4, 5, 6⟩, .LevelDebug, "main.go", 10, "", [.str "hi"]⟩

/-- An Info-level record with no template and arguments `["a", 1]`. -/
def aOneContent : LogContent :=
  ⟨⟨2026, 1, 3, 4, 5, 6⟩, .LevelInfo, "main.go", 12, "", [.str "a", .int 1]⟩

/-- A Fatal-level record. -/
def fatalContent : LogContent :=
  ⟨⟨2018, 10, 16, 17, 53, 45⟩, .LevelFatal, "xlog.go", 132, "", [.str "this is fatal"]⟩

/-- A Panic-level record with a template. -/
def panicContent : LogContent :=
  ⟨⟨2018, 10, 16, 17, 53, 45⟩, .LevelPanic, "xlog.go", 150, "%s=%d", [.str "x", .int 1]⟩

/-- A record timestamped on calendar day 2, one day after `fileLogger`'s
    stored marker. -/
def day2Content : LogContent :=
  ⟨⟨2026, 1, 2, 0, 0, 1⟩, .LevelInfo, "main.go", 20, "", [.str "tick"]⟩

/-! ### Helper lemmas on decimal renderings -/

lemma padTo2_eq_twoDigitRendering : ∀ n < 100, padTo2 n = twoDigitRendering n := by
  decide

lemma toDigitsCore_four (f y : Nat) (h1 : 1000 ≤ y) (h2 : y < 10000) (l : List Char) :
    Nat.toDigitsCore 10 (f + 4) y l =
      Nat.digitChar (y / 1000 % 10) :: Nat.digitChar (y / 10 / 10 % 10) ::
        Nat.digitChar (y / 10 % 10) :: Nat.digitChar (y % 10) :: l := by
  have hy10 : ¬ (y / 10 = 0) := by omega
  have hy100 : ¬ (y / 10 / 10 = 0) := by omega
  have hy1000 : ¬ (y / 10 / 10 / 10 = 0) := by omega
  have hy10000 : y / 10 / 10 / 10 / 10 = 0 := by omega
  have e1000 : y / 10 / 10 / 10 = y / 1000 := by omega
  have hA : ¬ (y / 1000 = 0) := by omega
  have hB : y / 1000 / 10 = 0 := by omega
  simp only [Nat.toDigitsCore, hy10, hy100, hy1000, hy10000, if_false, if_true, e1000,
    hA, hB]

lemma repr_four (y : Nat) (h1 : 1000 ≤ y) (h2 : y < 10000) :
    Nat.repr y = fourDigitRendering y := by
  have hf : y + 1 = (y - 3) + 4 := by omega
  have h := toDigitsCore_four (y - 3) y h1 h2 []
  rw [← hf] at h
  have e1 : y / 1000 % 10 = y / 1000 := by omega
  have e2 : y / 10 / 10 % 10 = y / 100 % 10 := by omega
  rw [e1, e2] at h
  simp only [Nat.repr, Nat.toDigits, h, List.asString, fourDigitRendering]

lemma format_bytes (l : Logger) (lc : LogContent) :
    (format l lc).bytes =
      Nat.repr lc.t.year ++ "/" ++ padTo2 lc.t.month ++ "/" ++ padTo2 lc.t.day
        ++ " " ++ padTo2 lc.t.hour ++ ":" ++ padTo2 lc.t.min ++ ":" ++ padTo2 lc.t.sec
        ++ " [" ++ levelString lc.level ++ "] "
        ++ lc.file ++ ":" ++ Nat.repr lc.line ++ " "
        ++ msgBody lc ++ "\n" := rfl

/-! ### Claim theorems -/

/-- Claim C1: a call `output(level, format, args)` with `level` strictly
below the logger's configured threshold returns immediately and enqueues
nothing; otherwise it enqueues a record carrying the captured timestamp,
level, caller location, format and arguments.  Consequently the sink
receives bytes for a level-`L` call iff `L ≥` the threshold in effect at
enqueue time. -/
theorem output_level_filter (l : Logger) (level : LogLevel) (t : GoTime)
    (caller : Option (String × Nat)) (fmtStr : String) (v : List GoValue) :
    (output l level t caller fmtStr v = none ↔ level.toNat < l.level.toNat)
    ∧ (l.level.toNat ≤ level.toNat →
        output l level t caller fmtStr v =
          some ⟨t, level, resolvedFile caller, resolvedLine caller, fmtStr, v⟩)
    ∧ (callSinkWrites l level t caller fmtStr v ≠ [] ↔ l.level.toNat ≤ level.toNat) := by
  by_cases h : level.toNat < l.level.toNat
  · have e : output l level t caller fmtStr v = none := by
      unfold output; rw [if_pos h]
    have e2 : callSinkWrites l level t caller fmtStr v = [] := by
      unfold callSinkWrites; rw [e]
    refine ⟨⟨fun _ => h, fun _ => e⟩, fun hle => absurd h (by omega), ?_⟩
    rw [e2]
    exact ⟨fun hne => absurd rfl hne, fun hle => absurd h (by omega)⟩
  · have e : output l level t caller fmtStr v =
        some ⟨t, level, resolvedFile caller, resolvedLine caller, fmtStr, v⟩ := by
      unfold output; rw [if_neg h]
    have e2 : callSinkWrites l level t caller fmtStr v =
        [(writeStep l ⟨t, level, resolvedFile caller, resolvedLine caller,
          fmtStr, v⟩).bytes] := by
      unfold callSinkWrites; rw [e]
    refine ⟨⟨fun hc => (by rw [e] at hc; cases hc), fun hlt => absurd hlt h⟩,
      fun _ => e, ?_⟩
    rw [e2]
    exact ⟨fun _ => by omega, fun _ => List.cons_ne_nil _ _⟩

/-- Witness for C1: a Warn-level call on an Info-threshold logger is
enqueued with its captured data, while a Debug-level call on the same
logger is filtered out with nothing enqueued. -/
theorem output_level_filter_witness :
    (output infoLogger .LevelWarn ⟨2018, 10, 16, 17, 51, 26⟩ (some ("xlog.go", 66)) ""
        [GoValue.str "this is warn"] = some warnContent)
    ∧ (output infoLogger .LevelDebug ⟨2018, 10, 16, 17, 51, 26⟩ (some ("xlog.go", 66)) ""
        [GoValue.str "this is debug"] = none) := by
  constructor
  · exact (output_level_filter infoLogger .LevelWarn ⟨2018, 10, 16, 17, 51, 26⟩
      (some ("xlog.go", 66)) "" [GoValue.str "this is warn"]).2.1 (by decide)
  · exact (output_level_filter infoLogger .LevelDebug ⟨2018, 10, 16, 17, 51, 26⟩
      (some ("xlog.go", 66)) "" [GoValue.str "this is debug"]).1.mpr (by decide)

/-- Claim C2: for a record with a valid calendar timestamp, `format`
renders exactly `YYYY/MM/DD HH:MM:SS [level] file:line message\n` —
month, day, hour, minute and second each zero-padded to exactly two
digits, the year four digits, and the level tag the lowercase level name
in square brackets. -/
theorem format_fixed_width_line (l : Logger) (lc : LogContent)
    (hy1 : 1000 ≤ lc.t.year) (hy2 : lc.t.year ≤ 9999)
    (hm2 : lc.t.month ≤ 12) (hd2 : lc.t.day ≤ 31)
    (hh : lc.t.hour ≤ 23) (hmin : lc.t.min ≤ 59) (hs : lc.t.sec ≤ 59) :
    (format l lc).bytes =
      fourDigitRendering lc.t.year ++ "/" ++ twoDigitRendering lc.t.month ++ "/"
        ++ twoDigitRendering lc.t.day ++ " " ++ twoDigitRendering lc.t.hour ++ ":"
        ++ twoDigitRendering lc.t.min ++ ":" ++ twoDigitRendering lc.t.sec
        ++ " [" ++ levelString lc.level ++ "] " ++ lc.file ++ ":" ++ Nat.repr lc.line
        ++ " " ++ msgBody lc ++ "\n"
    ∧ (fourDigitRendering lc.t.year).length = 4
    ∧ (twoDigitRendering lc.t.month).length = 2
    ∧ (twoDigitRendering lc.t.day).length = 2
    ∧ (twoDigitRendering lc.t.hour).length = 2
    ∧ (twoDigitRendering lc.t.min).length = 2
    ∧ (twoDigitRendering lc.t.sec).length = 2
    ∧ levelString lc.level ∈ ["debug", "info", "warn", "error", "panic", "fatal"] := by
  refine ⟨?_, rfl, rfl, rfl, rfl, rfl, rfl, ?_⟩
  · rw [format_bytes, repr_four lc.t.year hy1 (by omega),
      padTo2_eq_twoDigitRendering lc.t.month (by omega),
      padTo2_eq_twoDigitRendering lc.t.day (by omega),
      padTo2_eq_twoDigitRendering lc.t.hour (by omega),
      padTo2_eq_twoDigitRendering lc.t.min (by omega),
      padTo2_eq_twoDigitRendering lc.t.sec (by omega)]
  · cases lc.level <;> simp [levelString]

/-- Witness for C2: January 3rd, 04:05:06 of year 2026 renders with
zero-padded two-digit fields, as `2026/01/03 04:05:06 [debug] main.go:10
hi\n`. -/
theorem format_fixed_width_line_witness :
    (format { level := .LevelDebug, calldepth := 3, out := 0, f := none,
              fileName := "", curDay := 3 }
      { t := ⟨2026, 1, 3, 4, 5, 6⟩, level := .LevelDebug, file := "main.go", line := 10,
        format := "", v := [GoValue.str "hi"] }).bytes
      = "2026/01/03 04:05:06 [debug] main.go:10 hi\n" := by
  have h := format_fixed_width_line
    { level := .LevelDebug, calldepth := 3, out := 0, f := none,
      fileName := "", curDay := 3 }
    { t := ⟨2026, 1, 3, 4, 5, 6⟩, level := .LevelDebug, file := "main.go", line := 10,
      format := "", v := [GoValue.str "hi"] }
    (by decide) (by decide) (by decide) (by decide) (by decide) (by decide) (by decide)
  exact h.1.trans (by decide)

/-- Claim C10: when `runtime.Caller` fails at the configured depth, the
record is still constructed and enqueued normally with file `"???"` and
line `0`; resolution failure itself never drops a record — a call is
dropped exactly when its level is below the threshold, resolved caller or
not. -/
theorem output_caller_fallback (l : Logger) (level : LogLevel) (t : GoTime)
    (fmtStr : String) (v : List GoValue) :
    (l.level.toNat ≤ level.toNat →
      output l level t none fmtStr v =
        some { t := t, level := level, file := "???", line := 0,
               format := fmtStr, v := v })
    ∧ (output l level t none fmtStr v = none ↔ level.toNat < l.level.toNat) := by
  by_cases h : level.toNat < l.level.toNat
  · have e : output l level t none fmtStr v = none := by
      unfold output; rw [if_pos h]
    exact ⟨fun hle => absurd h (by omega), ⟨fun _ => h, fun _ => e⟩⟩
  · have e : output l level t none fmtStr v =
        some ⟨t, level, "???", 0, fmtStr, v⟩ := by
      unfold output; rw [if_neg h]; rfl
    exact ⟨fun _ => e, ⟨fun hc => (by rw [e] at hc; cases hc), fun hlt => absurd hlt h⟩⟩

/-- Witness for C10: an Error-level call with unresolved caller on an
Info-threshold logger enqueues a record with file `"???"` and line 0. -/
theorem output_caller_fallback_witness :
    output infoLogger .LevelError ⟨2018, 10, 16, 17, 51, 26⟩ none ""
        [GoValue.str "oops"] =
      some ⟨⟨2018, 10, 16, 17, 51, 26⟩, .LevelError, "???", 0, "",
        [GoValue.str "oops"]⟩ := by
  exact (output_caller_fallback infoLogger .LevelError ⟨2018, 10, 16, 17, 51, 26⟩ ""
    [GoValue.str "oops"]).1 (by decide)

/-- Claim C3: in the writer loop, every dequeued record's formatted bytes
are written to the sink before any terminal action; a Fatal record then
terminates the process with exit status 1, a Panic record then raises a
panic carrying the formatted message body, and every other level
continues the loop with no terminal action. -/
theorem writer_terminal_after_write (l : Logger) (lc : LogContent) :
    ((writeStepTrace l lc).take 3 =
      [Event.poolGet, Event.poolPut, Event.sinkWrite (format l lc).bytes])
    ∧ (lc.level = .LevelFatal →
        writeStepTrace l lc =
          [Event.poolGet, Event.poolPut, Event.sinkWrite (format l lc).bytes,
            Event.exited 1])
    ∧ (lc.level = .LevelPanic →
        writeStepTrace l lc =
          [Event.poolGet, Event.poolPut, Event.sinkWrite (format l lc).bytes,
            Event.panicked (panicMessage lc)])
    ∧ (lc.level ≠ .LevelFatal → lc.level ≠ .LevelPanic →
        writeStepTrace l lc =
          [Event.poolGet, Event.poolPut, Event.sinkWrite (format l lc).bytes]
        ∧ (writeStep l lc).action = TermAction.next)
    ∧ panicMessage lc = msgBody lc := by
  refine ⟨rfl, ?_, ?_, ?_, rfl⟩
  · intro hf
    unfold writeStepTrace; rw [if_pos hf]; rfl
  · intro hp
    have hf : lc.level ≠ .LevelFatal := by rw [hp]; intro hc; cases hc
    unfold writeStepTrace; rw [if_neg hf, if_pos hp]; rfl
  · intro hf hp
    constructor
    · unfold writeStepTrace; rw [if_neg hf, if_neg hp]; rfl
    · show (if lc.level = LogLevel.LevelFatal then TermAction.exitOne
        else if lc.level = LogLevel.LevelPanic then TermAction.panicWith (panicMessage lc)
        else TermAction.next) = TermAction.next
      rw [if_neg hf, if_neg hp]

/-- Witness for C3: a Fatal record's iteration writes the formatted line
and only then exits with status 1; a Panic record's iteration writes the
formatted line and only then panics with the formatted message body. -/
theorem writer_terminal_after_write_witness :
    writeStepTrace debugLogger fatalContent =
      [Event.poolGet, Event.poolPut,
        Event.sinkWrite "2018/10/16 17:53:45 [fatal] xlog.go:132 this is fatal\n",
        Event.exited 1]
    ∧ writeStepTrace debugLogger panicContent =
      [Event.poolGet, Event.poolPut,
        Event.sinkWrite "2018/10/16 17:53:45 [panic] xlog.go:150 x=1\n",
        Event.panicked "x=1"] := by
  constructor
  · have h := (writer_terminal_after_write debugLogger fatalContent).2.1 rfl
    rw [h]; decide
  · have h := (writer_terminal_after_write debugLogger panicContent).2.2.1 rfl
    rw [h]; decide

/-- Counterexample to C4 as stated: a record with no template and
arguments `["a", 1]` formats its message body as `"a1"` — since `"a"` is
a string operand, `fmt.Sprint` inserts no space — not `"a 1"` as the
claim's example asserts. -/
theorem no_template_body_example_refuted :
    msgBody aOneContent = "a1" ∧ msgBody aOneContent ≠ "a 1" := by
  decide

/-- Claim C4 (amended): with no template the message body is the default
`fmt.Sprint` rendering — operands' default strings concatenated with a
single space only between adjacent operands of which NEITHER is a string —
so `["a", 1]` yields `"a1"` while `[1, 2]` yields `"1 2"`; with a
template the body is the printf substitution, so `"%s=%d"` applied to
`["x", 1]` yields `"x=1"`. -/
theorem no_template_body_is_sprint (lc : LogContent) :
    (lc.format = "" → msgBody lc = sprint lc.v)
    ∧ (lc.format ≠ "" → msgBody lc = sprintf lc.format lc.v)
    ∧ (∀ x y rest, sprint (x :: y :: rest) =
        x.defaultString ++
          ((if x.isString || y.isString then "" else " ") ++ sprint (y :: rest)))
    ∧ sprintf "%s=%d" [GoValue.str "x", GoValue.int 1] = "x=1"
    ∧ sprint [GoValue.str "a", GoValue.int 1] = "a1"
    ∧ sprint [GoValue.int 1, GoValue.int 2] = "1 2" := by
  refine ⟨fun h => (by unfold msgBody; rw [if_pos h]),
    fun h => (by unfold msgBody; rw [if_neg h]), ?_, by decide, by decide, by decide⟩
  intro x y rest
  show x.defaultString ++ sprintAux x (y :: rest) = _
  show x.defaultString
      ++ ((if x.isString || y.isString then "" else " ") ++ y.defaultString
        ++ sprintAux y rest) = _
  rw [String.append_assoc]
  rfl

/-- Witness for C4 (amended): the record with no template and arguments
`["a", 1]` has body `sprint ["a", 1] = "a1"`, and the Panic record with
template `"%s=%d"` and arguments `["x", 1]` has body `"x=1"`. -/
theorem no_template_body_is_sprint_witness :
    msgBody aOneContent = sprint aOneContent.v
    ∧ sprint aOneContent.v = "a1"
    ∧ msgBody panicContent = sprintf panicContent.format panicContent.v
    ∧ sprintf panicContent.format panicContent.v = "x=1" := by
  refine ⟨(no_template_body_is_sprint aOneContent).1 rfl, by decide,
    (no_template_body_is_sprint panicContent).2.1 (by decide), by decide⟩

/-- For Claim C5 (a code bug): the dated file name built from base name
`"log"` on January 3rd, 2026 is `"log.2026 1 3"` — `formatTime` uses
`fmt.Sprintf("%4d%2d%2d", ...)`, whose `%2d` pads with SPACES, not
zeros — and not the `"log.20260103"` that the `<baseName>.<YYYYMMDD>`
convention requires; the symlink named `"log"` does point at that
(space-padded) active file. -/
theorem formatTime_space_padded :
    nowLogFileName "log" ⟨2026, 1, 3, 4, 5, 6⟩ = "log.2026 1 3"
    ∧ nowLogFileName "log" ⟨2026, 1, 3, 4, 5, 6⟩ ≠ "log.20260103"
    ∧ newLoggerFromFileSetup "log" ⟨2026, 1, 3, 4, 5, 6⟩ =
        ⟨"log.2026 1 3", "log", "log.2026 1 3"⟩ := by
  decide

/-- Counterexample to C6 as stated: when the new dated file opens
successfully but the symlink update fails, `changeFileByDay` calls
`log.Fatal` — the process terminates, no Error-level record is produced,
and the sink has already been swapped to the new file (handle 2), not
left at the previous one. -/
theorem rotation_symlink_failure_fatal :
    (changeFileByDayStep fileLogger true (some 2) false).fatalExit = true
    ∧ (changeFileByDayStep fileLogger true (some 2) false).errorCalled = false
    ∧ (changeFileByDayStep fileLogger true (some 2) false).l.out = 2 := by
  decide

/-- Claim C6 (amended): during rotation, a failure to create/open the new
dated file is non-fatal — the error is reported via an Error-level call on
the same logger, the logger (its sink included) is left unchanged, and
rotation recurs only on a later day-boundary notification; but a failure
to update the symlink terminates the process via `log.Fatal`, after the
sink has already been swapped to the new file. -/
theorem rotation_failure_policy (l : Logger) (fh : Nat) (symlinkOk : Bool)
    (hf : l.f.isSome = true) :
    (changeFileByDayStep l true none symlinkOk = ⟨l, true, false, false⟩)
    ∧ (changeFileByDayStep l true (some fh) false =
        ⟨{ l with out := fh, f := some fh }, false, true, true⟩)
    ∧ (changeFileByDayStep l true (some fh) true =
        ⟨{ l with out := fh, f := some fh }, false, false, true⟩) := by
  refine ⟨?_, ?_, ?_⟩ <;> (unfold changeFileByDayStep; rw [if_pos ⟨rfl, hf⟩])
  all_goals rfl

/-- Witness for C6 (amended): on the file-backed logger, a create failure
leaves the logger untouched and calls `Error`; a successful rotation swaps
the sink to the new handle. -/
theorem rotation_failure_policy_witness :
    changeFileByDayStep fileLogger true none true = ⟨fileLogger, true, false, false⟩
    ∧ changeFileByDayStep fileLogger true (some 2) true =
        ⟨⟨.LevelDebug, 3, 2, some 2, "log", 1⟩, false, false, true⟩ := by
  have h := rotation_failure_policy fileLogger 2 true (by decide)
  exact ⟨h.1, by rw [h.2.2]; rfl⟩

/-- For Claim C7 (a code bug): `format` has a value receiver, so the
`l.curDay = day` assignment never reaches the logger: on a record dated
day 2 against a stored marker of day 1, the notification is sent and the
method-local copy's marker becomes 2, yet the writer's logger still
carries marker 1 after the iteration — and a further record on the same
day 2 sends the notification again. -/
theorem curDay_marker_never_persisted :
    (format fileLogger day2Content).dayChangeSent = true
    ∧ (format fileLogger day2Content).curDayLocal = 2
    ∧ (writeIter fileLogger day2Content).1.curDay = 1
    ∧ (format (writeIter fileLogger day2Content).1 day2Content).dayChangeSent = true := by
  decide

/-- Counterexample to C8 as stated: on an ordinary record, the iteration's
event order is pool-get, pool-put, sink-write — the deferred
`bufferPool.Put` runs when `format` returns, so the buffer is back in the
pool BEFORE the writer writes the rendered bytes, not only after. -/
theorem pool_put_precedes_sink_write :
    writeStepTrace debugLogger aOneContent =
      [Event.poolGet, Event.poolPut,
        Event.sinkWrite "2026/01/03 04:05:06 [info] main.go:12 a1\n"]
    ∧ ¬ (∀ (i j : Nat) (b : String),
          (writeStepTrace debugLogger aOneContent)[i]? = some Event.poolPut →
          (writeStepTrace debugLogger aOneContent)[j]? = some (Event.sinkWrite b) →
          j < i) := by
  constructor
  · decide
  · intro hcl
    have h2 := hcl 1 2 "2026/01/03 04:05:06 [info] main.go:12 a1\n"
      (by decide) (by decide)
    omega

/-- Claim C8 (amended): the pooled buffer borrowed by `format` is
returned to the pool when `format` returns — that is, before the writer
loop writes the rendered bytes (which alias the pooled buffer's storage);
every iteration's first three events are pool-get, pool-put, sink-write
in that order. -/
theorem pool_put_at_format_return (l : Logger) (lc : LogContent) :
    (writeStepTrace l lc).take 3 =
      [Event.poolGet, Event.poolPut, Event.sinkWrite (format l lc).bytes] := rfl

/-- Claim C9: the writer loop delivers to the sink exactly the formatted
bytes of the enqueued records, one whole chunk per record, in enqueue
order (the `buffer` channel is FIFO with a single consumer), up to and
including the first Fatal/Panic record, after which the loop is gone. -/
theorem sink_receives_in_enqueue_order (l : Logger) (recs : List LogContent) :
    processQueue l recs =
      (consumedRecords recs).map (fun lc => (format l lc).bytes)
    ∧ ∃ tail, recs = consumedRecords recs ++ tail := by
  induction recs with
  | nil => exact ⟨rfl, ⟨[], rfl⟩⟩
  | cons lc rest ih =>
    obtain ⟨t, lvl, file, line, fm, vv⟩ := lc
    obtain ⟨hm, tail, ht⟩ := ih
    cases lvl
    case LevelFatal => exact ⟨rfl, ⟨rest, rfl⟩⟩
    case LevelPanic => exact ⟨rfl, ⟨rest, rfl⟩⟩
    all_goals exact ⟨congrArg (List.cons _) hm, ⟨tail, congrArg (List.cons _) ht⟩⟩

end XLog
